import Mathlib

/-!
Verification development for the per-task runner of the lora-runner repository
(src/src/h_server/task/task_runner.py). The Python code is shallowly embedded:
each handler and helper becomes a pure Lean function from the runner state (and
explicit parameters standing for the outcomes of external collaborators such as
the contract client, the relay and the worker) to a new state together with a
trace of observable effects (contract submissions, state persists, queue
acks/no-acks, cleanup). Machine bytes are modelled as lists of naturals and the
cooperative handlers are modelled sequentially: a handler whose
wait-for-status guard is not satisfied is recorded as blocked and leaves the
state unchanged.
-/

/-- Byte strings are modelled as lists of naturals. -/
abbrev Bytes := List Nat

/-- Task status values, following the order declared by the protocol. -/
inductive TaskStatus where
  | Pending
  | Executing
  | ResultUploaded
  | Disclosed
  | Success
  | Aborted
deriving DecidableEq, Repr

/-- Durable per-task state, with the fields read and written by task_runner.py.
The field list and the defaults used when the runner creates a fresh record
follow the data model of the spec (the models.TaskState class itself is not
under src). -/
structure TaskState where
  task_id : Nat
  round : Nat
  timeout : Int
  status : TaskStatus
  result : Bytes := []
  disclosed : Bool := false
  files : List String := []
  waiting_tx_method : String := ""
  waiting_tx_hash : Bytes := []
deriving DecidableEq, Repr

/-- Read-only chain projection of a task, with the fields the MockTaskRunner
constructs; the runner itself reads only id and timeout. -/
structure ChainTask where
  id : Nat
  creator : String
  task_hash : Bytes
  data_hash : Bytes
  is_success : Bool
  selected_nodes : List String
  commitments : List Bytes
  nonces : List Bytes
  results : List Bytes
  result_disclosed_rounds : List Nat
  result_node : String
  aborted : Bool
  timeout : Int
deriving DecidableEq, Repr

/-- Events delivered to the runner through the event queue. -/
inductive TaskEvent where
  | taskCreated (task_id : Nat) (round : Nat)
  | taskResultReady (task_id : Nat) (hashes : List String) (files : List String)
  | taskResultCommitmentsReady (task_id : Nat)
  | taskSuccess (task_id : Nat) (result_node : String)
  | taskAborted (task_id : Nat)
deriving DecidableEq, Repr

/-- Contract calls the runner submits, one constructor per task-contract
method used by task_runner.py. -/
inductive ChainCall where
  | submit_task_result_commitment (task_id : Nat) (round : Nat)
      (commitment : Bytes) (nonce : Bytes)
  | disclose_task_result (task_id : Nat) (round : Nat) (result : Bytes)
  | report_results_uploaded (task_id : Nat) (round : Nat)
  | report_task_error (task_id : Nat) (round : Nat)
  | cancel_task_call (task_id : Nat)
deriving DecidableEq, Repr

/-- Observable effects of a handler run, in program order. A persist records
the snapshot written by the exit of a state-context; ackEv and noAckEv record
the queue acknowledgement calls made while draining; cleanupRun records a call
of cleanup. -/
inductive Effect where
  | chain (c : ChainCall)
  | persist (s : TaskState)
  | ackEv (ack_id : Nat)
  | noAckEv (ack_id : Nat)
  | cleanupRun
  | enqueue (e : TaskEvent)
  | relayUpload (task_id : Nat) (files : List String)
deriving DecidableEq, Repr

/-- Outcome of awaiting one transaction receipt. -/
inductive TxOutcome where
  | ok
  | reverted (reason : String)
deriving DecidableEq, Repr

/-- Outcome of one coordinator call as seen by its caller. -/
inductive CallOutcome where
  | ok
  | valueError (msg : String)
  | txReverted (reason : String)
deriving DecidableEq, Repr

/-- Projection keeping only the contract submissions of a trace. -/
def chainCalls (t : List Effect) : List ChainCall :=
  t.filterMap fun e =>
    match e with
    | .chain c => some c
    | _ => none

/-- Method names the coordinator dispatches to a contract function
(task_runner.py lines 330-339). -/
def supported_task_method (m : String) : Bool :=
  m = "submitTaskResultCommitment" || m = "discloseTaskResult" ||
    m = "reportResultsUploaded" || m = "reportTaskError"

/-- Result of one run of the chain-call coordinator. The field stateAtWait is
the runner state at the moment the receipt wait begins (none when the
coordinator raises before any wait), and waitedHash is the transaction hash the
waiter is built from (the hash of the new submission, or the stored hash on the
resume path). -/
structure CoordResult where
  state : TaskState
  trace : List Effect
  waitedHash : Option Bytes
  stateAtWait : Option TaskState
  outcome : CallOutcome
deriving Repr

/-- Embedding of InferenceTaskRunner._call_task_contract_method
(task_runner.py lines 325-359). The parameter call is the submission the
dispatched contract function performs for the given method and arguments,
newTxHash the hash of that new transaction, and txOut the outcome of awaiting
the receipt. On the submit path the source code never writes
waiting_tx_method or waiting_tx_hash before the wait; both fields are written
(cleared) only after a successful wait, inside a state-context. A revert
raises out of waiter.wait, so the clearing block is not reached. -/
def call_task_contract_method (s : TaskState) (method : String) (call : ChainCall)
    (newTxHash : Bytes) (txOut : TxOutcome) : CoordResult :=
  if s.waiting_tx_method = "" ∧ s.waiting_tx_hash = [] then
    if supported_task_method method then
      match txOut with
      | .ok =>
          let s1 : TaskState := { s with waiting_tx_hash := [], waiting_tx_method := "" }
          { state := s1, trace := [.chain call, .persist s1],
            waitedHash := some newTxHash, stateAtWait := some s, outcome := .ok }
      | .reverted r =>
          { state := s, trace := [.chain call],
            waitedHash := some newTxHash, stateAtWait := some s,
            outcome := .txReverted r }
    else
      { state := s, trace := [], waitedHash := none, stateAtWait := none,
        outcome := .valueError ("Unsupported task contract method: " ++ method) }
  else if s.waiting_tx_method = method ∧ s.waiting_tx_hash ≠ [] then
    match txOut with
    | .ok =>
        let s1 : TaskState := { s with waiting_tx_hash := [], waiting_tx_method := "" }
        { state := s1, trace := [.persist s1],
          waitedHash := some s.waiting_tx_hash, stateAtWait := some s, outcome := .ok }
    | .reverted r =>
        { state := s, trace := [],
          waitedHash := some s.waiting_tx_hash, stateAtWait := some s,
          outcome := .txReverted r }
  else
    { state := s, trace := [], waitedHash := none, stateAtWait := none,
      outcome := .valueError "Error state waiting tx method" }

/-- Concrete runner state about to disclose, with no in-flight transaction. -/
def freshDiscloseState : TaskState :=
  { task_id := 7, round := 2, timeout := 900, status := .ResultUploaded,
    result := [170, 187] }

/-- Concrete runner state holding a persisted in-flight disclose transaction,
as a restarted runner loads it from the cache. -/
def resumeDiscloseState : TaskState :=
  { task_id := 7, round := 2, timeout := 900, status := .ResultUploaded,
    result := [170, 187], waiting_tx_method := "discloseTaskResult",
    waiting_tx_hash := [18, 52] }

/-- Substring test on character lists, used to model the Python membership
test of one string in another. -/
def containsSub (needle : List Char) : List Char → Bool
  | [] => needle.isEmpty
  | c :: rest => needle.isPrefixOf (c :: rest) || containsSub needle rest

/-- Test used by result_ready on a revert reason (the Python expression
testing whether the string Task is aborted occurs in e.reason). -/
def reasonHasTaskAborted (r : String) : Bool :=
  containsSub "Task is aborted".toList r.toList

/-- Value of one hexadecimal digit character. -/
def hexDigit (c : Char) : Nat :=
  if c.isDigit then c.toNat - 48
  else if c.isLower then c.toNat - 87
  else c.toNat - 55

/-- Decode consecutive pairs of hexadecimal digits into bytes. -/
def hexPairs : List Char → Bytes
  | a :: b :: rest => (hexDigit a * 16 + hexDigit b) :: hexPairs rest
  | _ => []

/-- Decode a 0x-prefixed hexadecimal string into bytes, as the Python
expression decoding h with its first two characters dropped does. -/
def bytes_fromhex (h : String) : Bytes :=
  hexPairs (h.toList.drop 2)

/-- Modelled from the spec: make_result_commitments lives in
h_server/task/utils.py, which is not under src. Per the spec, given the list
of per-artifact hex hashes it derives the result as the concatenation of their
bytes, draws a fresh random nonce, and computes the commitment by hashing
result and nonce with the fixed external primitive. The primitive H and the
drawn nonce are parameters of the model. Returns (result, commitment, nonce). -/
def make_result_commitments (H : Bytes → Bytes → Bytes) (nonce : Bytes)
    (hashes : List String) : Bytes × Bytes × Bytes :=
  let result := (hashes.map bytes_fromhex).flatten
  (result, H result nonce, nonce)

/-- Exceptions a handler can raise out of its body. -/
inductive HandlerError where
  | txReverted (reason : String)
  | valueError (msg : String)
  | assertionError
  | relayError
  | workerError
deriving DecidableEq, Repr

/-- How one handler run ends: normal return, blocked forever on its
wait-for-status barrier, or an exception propagating out of the handler. -/
inductive HandlerExit where
  | ok
  | blocked
  | raised (e : HandlerError)
deriving DecidableEq, Repr

/-- Result of one handler run. -/
structure HandlerResult where
  state : TaskState
  trace : List Effect
  exit : HandlerExit
deriving Repr

/-- Embedding of InferenceTaskRunner._report_error (task_runner.py lines
361-372): a state-context sets status to Aborted and persists it, then
reportTaskError is driven through the chain-call coordinator with the state
round; a revert of that call is logged and swallowed. -/
def report_error (s : TaskState) (reportOut : TxOutcome) : HandlerResult :=
  let s1 : TaskState := { s with status := .Aborted }
  let c := call_task_contract_method s1 "reportTaskError"
      (.report_task_error s1.task_id s1.round) [] reportOut
  match c.outcome with
  | .ok => { state := c.state, trace := .persist s1 :: c.trace, exit := .ok }
  | .txReverted _ => { state := c.state, trace := .persist s1 :: c.trace, exit := .ok }
  | .valueError m =>
      { state := c.state, trace := .persist s1 :: c.trace,
        exit := .raised (.valueError m) }

/-- Embedding of InferenceTaskRunner.result_ready (task_runner.py lines
489-511). The handler first waits for status Executing; the whole body runs in
one state-context, whose exit persists the state on every path, including the
early return of the error-report path and exception propagation. When result
is empty it computes commitments and submits them; a revert whose reason
contains Task is aborted switches to report_error, any other revert is
swallowed; in the remaining paths the result, status ResultUploaded and the
event files are recorded. -/
def result_ready (s : TaskState) (ev_hashes ev_files : List String)
    (H : Bytes → Bytes → Bytes) (nonce : Bytes)
    (commitOut reportOut : TxOutcome) : HandlerResult :=
  if s.status ≠ .Executing then { state := s, trace := [], exit := .blocked }
  else
    if s.result = [] then
      let rcn := make_result_commitments H nonce ev_hashes
      let c := call_task_contract_method s "submitTaskResultCommitment"
          (.submit_task_result_commitment s.task_id s.round rcn.2.1 rcn.2.2) [] commitOut
      match c.outcome with
      | .ok =>
          let s3 : TaskState :=
            { c.state with result := rcn.1, status := .ResultUploaded, files := ev_files }
          { state := s3, trace := c.trace ++ [.persist s3], exit := .ok }
      | .txReverted r =>
          if reasonHasTaskAborted r then
            let re := report_error c.state reportOut
            { state := re.state, trace := c.trace ++ re.trace ++ [.persist re.state],
              exit := re.exit }
          else
            let s3 : TaskState :=
              { c.state with result := rcn.1, status := .ResultUploaded, files := ev_files }
            { state := s3, trace := c.trace ++ [.persist s3], exit := .ok }
      | .valueError m =>
          { state := c.state, trace := c.trace ++ [.persist c.state],
            exit := .raised (.valueError m) }
    else
      let s3 : TaskState := { s with status := .ResultUploaded, files := ev_files }
      { state := s3, trace := [.persist s3], exit := .ok }

/-- Embedding of InferenceTaskRunner.commitment_ready (task_runner.py lines
513-528). The handler waits for status ResultUploaded, asserts the result is
non-empty, submits discloseTaskResult through the coordinator only when
disclosed is false, sets disclosed inside the same state-context, and records
status Disclosed. -/
def commitment_ready (s : TaskState) (txOut : TxOutcome) : HandlerResult :=
  if s.status ≠ .ResultUploaded then { state := s, trace := [], exit := .blocked }
  else
    if s.result = [] then
      { state := s, trace := [.persist s], exit := .raised .assertionError }
    else if s.disclosed = false then
      let c := call_task_contract_method s "discloseTaskResult"
          (.disclose_task_result s.task_id s.round s.result) [] txOut
      match c.outcome with
      | .ok =>
          let s3 : TaskState := { c.state with disclosed := true, status := .Disclosed }
          { state := s3, trace := c.trace ++ [.persist s3], exit := .ok }
      | .txReverted r =>
          { state := c.state, trace := c.trace ++ [.persist c.state],
            exit := .raised (.txReverted r) }
      | .valueError m =>
          { state := c.state, trace := c.trace ++ [.persist c.state],
            exit := .raised (.valueError m) }
    else
      let s3 : TaskState := { s with status := .Disclosed }
      { state := s3, trace := [.persist s3], exit := .ok }

/-- Embedding of InferenceTaskRunner.task_success (task_runner.py lines
530-542). The handler waits for status Disclosed; when the event result node
is this account it uploads the artifacts to the relay and drives
reportResultsUploaded through the coordinator; then status Success is
recorded. -/
def task_success (s : TaskState) (result_node account : String)
    (uploadOk : Bool) (txOut : TxOutcome) : HandlerResult :=
  if s.status ≠ .Disclosed then { state := s, trace := [], exit := .blocked }
  else if result_node = account then
    if uploadOk = false then
      { state := s, trace := [.persist s], exit := .raised .relayError }
    else
      let c := call_task_contract_method s "reportResultsUploaded"
          (.report_results_uploaded s.task_id s.round) [] txOut
      match c.outcome with
      | .ok =>
          let s3 : TaskState := { c.state with status := .Success }
          { state := s3,
            trace := .relayUpload s.task_id s.files :: c.trace ++ [.persist s3],
            exit := .ok }
      | .txReverted r =>
          { state := c.state,
            trace := .relayUpload s.task_id s.files :: c.trace ++ [.persist c.state],
            exit := .raised (.txReverted r) }
      | .valueError m =>
          { state := c.state,
            trace := .relayUpload s.task_id s.files :: c.trace ++ [.persist c.state],
            exit := .raised (.valueError m) }
  else
    let s3 : TaskState := { s with status := .Success }
    { state := s3, trace := [.persist s3], exit := .ok }

/-- Embedding of InferenceTaskRunner.task_aborted (task_runner.py lines
544-546): no wait barrier; status is set to Aborted in a state-context. -/
def task_aborted (s : TaskState) : HandlerResult :=
  let s1 : TaskState := { s with status := .Aborted }
  { state := s1, trace := [.persist s1], exit := .ok }

/-- Outcome of the blocking worker call dispatched by task_created. -/
inductive WorkerOutcome where
  | ok
  | taskInvalid
  | failed
deriving DecidableEq, Repr

/-- Embedding of InferenceTaskRunner.task_created (task_runner.py lines
392-487). The handler waits for status Pending, records the event round in
its own state-context, fetches the task from the relay (a failed fetch
propagates), then runs the worker. In distributed mode a successful worker
run only advances the status to Executing; in local mode it also enqueues a
self-generated TaskResultReady with the computed hashes and paths, and a
TaskInvalid failure switches to the shielded report_error path. -/
def task_created (s : TaskState) (ev_round : Nat) (distributed : Bool)
    (relayOk : Bool) (worker : WorkerOutcome)
    (w_hashes w_files : List String) (reportOut : TxOutcome) : HandlerResult :=
  if s.status ≠ .Pending then { state := s, trace := [], exit := .blocked }
  else
    let s1 : TaskState := { s with round := ev_round }
    if relayOk = false then
      { state := s1, trace := [.persist s1], exit := .raised .relayError }
    else if distributed then
      match worker with
      | .ok =>
          let s2 : TaskState := { s1 with status := .Executing }
          { state := s2, trace := [.persist s1, .persist s2], exit := .ok }
      | _ =>
          { state := s1, trace := [.persist s1], exit := .raised .workerError }
    else
      match worker with
      | .ok =>
          let s2 : TaskState := { s1 with status := .Executing }
          { state := s2,
            trace := [.persist s1, .persist s2,
              .enqueue (.taskResultReady s.task_id w_hashes w_files)],
            exit := .ok }
      | .taskInvalid =>
          let re := report_error s1 reportOut
          { state := re.state, trace := .persist s1 :: re.trace, exit := re.exit }
      | .failed =>
          { state := s1, trace := [.persist s1], exit := .raised .workerError }

/-- Embedding of InferenceTaskRunner.get_task (task_runner.py lines 374-379):
the chain task read from the contract is treated as nonexistent when its id is
zero or differs from the runner task id. -/
def get_task (task_id : Nat) (t : ChainTask) : Option ChainTask :=
  if t.id = 0 ∨ t.id ≠ task_id then none else some t

/-- Fresh state created by init when the cache has no record (task_runner.py
lines 104-110); the remaining fields take the defaults of the models.TaskState
class, which per the spec are an empty result, a false disclosed flag, no
files and no waiting transaction. -/
def initialTaskState (task_id : Nat) : TaskState :=
  { task_id := task_id, round := 0, timeout := 0, status := .Pending }

/-- Result of TaskRunner.init: the returned boolean (false means the caller
skips the run loop), the state after init, and whether the finally block
dumped the state to the cache before returning. -/
structure InitResult where
  ok : Bool
  state : TaskState
  dumped : Bool
deriving DecidableEq, Repr

/-- State init starts from: the cached record when the cache has one,
otherwise the freshly created record (task_runner.py lines 99-111). -/
def init_start (task_id : Nat) (cached : Option TaskState) : TaskState :=
  match cached with
  | some s => s
  | none => initialTaskState task_id

/-- Embedding of TaskRunner.init (task_runner.py lines 96-131). The parameter
cached is the record held by the state cache, and chain is the task the
contract returns. A terminal cached status returns immediately; a nonexistent
chain task forces Aborted; otherwise the chain timeout is copied in when it
differs. The need-dump flag is set by the record creation and by every
mutation, and the finally block dumps exactly when it is set. -/
def init (task_id : Nat) (cached : Option TaskState) (chain : ChainTask) : InitResult :=
  let s0 := init_start task_id cached
  let created := cached.isNone
  if s0.status = .Success ∨ s0.status = .Aborted then
    { ok := false, state := s0, dumped := created }
  else
    match get_task task_id chain with
    | none => { ok := false, state := { s0 with status := .Aborted }, dumped := true }
    | some t =>
        if s0.timeout ≠ t.timeout then
          { ok := true, state := { s0 with timeout := t.timeout }, dumped := true }
        else
          { ok := true, state := s0, dumped := created }

/-- Shield budget in seconds of the drain block and of every state-context
persist (the fail-after argument at task_runner.py lines 87 and 227). -/
def drainShieldTimeout : Nat := 10

/-- Embedding of the drain loop in the finally block of TaskRunner.run
(task_runner.py lines 226-239): when the state is set and its status is
Aborted or Success, every buffered (ack_id, event) pair is acked and cleanup
runs; otherwise every buffered pair is no-acked. -/
def drainEffects (st : Option TaskState) (dq : List (Nat × TaskEvent)) : List Effect :=
  match st with
  | some s =>
      if s.status = .Aborted ∨ s.status = .Success then
        (dq.map fun p => Effect.ackEv p.1) ++ [Effect.cleanupRun]
      else
        dq.map fun p => Effect.noAckEv p.1
  | none => dq.map fun p => Effect.noAckEv p.1

/-- How the receive loop of run ends: the fail-after deadline fired, the
whole runner was cancelled from outside, or a handler reached a terminal
status and cancelled the task group. -/
inductive LoopExit where
  | timedOut
  | cancelled
  | finished
deriving DecidableEq, Repr

/-- Outcome of the cancelTask transaction driven by cancel_task. -/
inductive CancelOutcome where
  | ok
  | reverted (reason : String)
  | failed
deriving DecidableEq, Repr

/-- Result of InferenceTaskRunner.cancel_task: effects and whether an
exception propagated to the caller. -/
structure CancelResult where
  trace : List Effect
  raised : Bool
deriving DecidableEq, Repr

/-- Embedding of InferenceTaskRunner.cancel_task (task_runner.py lines
381-390): the cancelTask transaction is submitted; a revert and any other
failure are logged and swallowed, so no outcome raises. -/
def cancel_task (task_id : Nat) (cOut : CancelOutcome) : CancelResult :=
  match cOut with
  | .ok => { trace := [.chain (.cancel_task_call task_id)], raised := false }
  | .reverted _ => { trace := [.chain (.cancel_task_call task_id)], raised := false }
  | .failed => { trace := [.chain (.cancel_task_call task_id)], raised := false }

/-- Result of one run of TaskRunner.run: the state when run returns, the
trace of effects, and whether run re-raised an exception (only external
cancellation does). -/
structure RunResult where
  finalState : Option TaskState
  trace : List Effect
  raised : Bool
deriving Repr

/-- Embedding of TaskRunner.run (task_runner.py lines 205-239). When init
returns false, run returns and the finally block drains. Otherwise, when the
remaining budget state.timeout minus now is non-positive, TimeoutError is
raised at once; the except branch sets status Aborted inside a state-context
and calls cancel_task. Otherwise the receive loop runs; it is modelled by its
exit kind together with the runner state sLoop at the moment it exits (the
fail-after deadline firing takes the same except branch). The finally block
then drains the buffered (ack_id, event) pairs dq under the shielded budget. -/
def run (initRes : InitResult) (now : Int) (loopExit : LoopExit) (sLoop : TaskState)
    (dq : List (Nat × TaskEvent)) (cOut : CancelOutcome) : RunResult :=
  if initRes.ok = false then
    { finalState := some initRes.state,
      trace := drainEffects (some initRes.state) dq, raised := false }
  else if initRes.state.timeout - now ≤ 0 then
    let s1 : TaskState := { initRes.state with status := .Aborted }
    { finalState := some s1,
      trace := Effect.persist s1 :: (cancel_task s1.task_id cOut).trace ++
        drainEffects (some s1) dq,
      raised := (cancel_task s1.task_id cOut).raised }
  else
    match loopExit with
    | .timedOut =>
        let s1 : TaskState := { sLoop with status := .Aborted }
        { finalState := some s1,
          trace := Effect.persist s1 :: (cancel_task s1.task_id cOut).trace ++
            drainEffects (some s1) dq,
          raised := (cancel_task s1.task_id cOut).raised }
    | .cancelled =>
        { finalState := some sLoop, trace := drainEffects (some sLoop) dq,
          raised := true }
    | .finished =>
        { finalState := some sLoop, trace := drainEffects (some sLoop) dq,
          raised := false }

/-- Test for a disclose submission. -/
def isDiscloseCall : ChainCall → Bool
  | .disclose_task_result _ _ _ => true
  | _ => false

/-- Test for a commitment submission. -/
def isCommitCall : ChainCall → Bool
  | .submit_task_result_commitment _ _ _ _ => true
  | _ => false

/-- Test for a cancelTask submission. -/
def isCancelCall : ChainCall → Bool
  | .cancel_task_call _ => true
  | _ => false

/-- Number of discloseTaskResult submissions in a trace. -/
def discloseCount (t : List Effect) : Nat :=
  (chainCalls t).countP isDiscloseCall

/-- Number of submitTaskResultCommitment submissions in a trace. -/
def commitCount (t : List Effect) : Nat :=
  (chainCalls t).countP isCommitCall

/-- Number of cancelTask submissions in a trace. -/
def cancelCount (t : List Effect) : Nat :=
  (chainCalls t).countP isCancelCall

/-- Test for the specially handled revert outcome of the commitment
submission. -/
def isAbortRevert : TxOutcome → Bool
  | .reverted r => reasonHasTaskAborted r
  | .ok => false

/-- Outcomes of all external collaborators for one handler run, bundled for
the event dispatch. -/
structure Oracle where
  distributed : Bool
  account : String
  hashFn : Bytes → Bytes → Bytes
  nonce : Bytes
  relayOk : Bool
  worker : WorkerOutcome
  workerHashes : List String
  workerFiles : List String
  txOut : TxOutcome
  reportOut : TxOutcome
  uploadOk : Bool

/-- Dispatch of TaskRunner.process_event (task_runner.py lines 133-156) to
the InferenceTaskRunner handlers. -/
def handleInferenceEvent (o : Oracle) (s : TaskState) (e : TaskEvent) : HandlerResult :=
  match e with
  | .taskCreated _ r =>
      task_created s r o.distributed o.relayOk o.worker o.workerHashes
        o.workerFiles o.reportOut
  | .taskResultReady _ hashes files =>
      result_ready s hashes files o.hashFn o.nonce o.txOut o.reportOut
  | .taskResultCommitmentsReady _ => commitment_ready s o.txOut
  | .taskSuccess _ result_node => task_success s result_node o.account o.uploadOk o.txOut
  | .taskAborted _ => task_aborted s

/-- Position of a status in the declared protocol order, with Aborted last. -/
def statusIdx : TaskStatus → Nat
  | .Pending => 0
  | .Executing => 1
  | .ResultUploaded => 2
  | .Disclosed => 3
  | .Success => 4
  | .Aborted => 5

/-- Oracle with every collaborator succeeding, used for concrete runs. -/
def plainOracle : Oracle :=
  { distributed := false, account := "self",
    hashFn := fun r n => r ++ n, nonce := [1],
    relayOk := true, worker := .ok, workerHashes := [], workerFiles := [],
    txOut := .ok, reportOut := .ok, uploadOk := true }

/-- Concrete runner state that already reached Success. -/
def successState : TaskState :=
  { task_id := 7, round := 2, timeout := 900, status := .Success,
    result := [170, 187], disclosed := true }

/-- Concrete runner state executing a task, before any result. -/
def executingState : TaskState :=
  { task_id := 7, round := 2, timeout := 900, status := .Executing }

/-- Concrete runner state that already reached Aborted. -/
def abortedState : TaskState :=
  { task_id := 7, round := 2, timeout := 900, status := .Aborted }

/-- Concrete non-terminal runner state whose deadline is in the past of the
run below. -/
def expiredState : TaskState :=
  { task_id := 7, round := 0, timeout := 900, status := .Pending }

/-- Concrete chain task matching task id 7. -/
def exampleChainTask : ChainTask :=
  { id := 7, creator := "", task_hash := [], data_hash := [], is_success := false,
    selected_nodes := [], commitments := [], nonces := [], results := [],
    result_disclosed_rounds := [], result_node := "", aborted := false,
    timeout := 1234 }

/-- Concrete chain task whose id is zero, as the contract returns for a task
that does not exist. -/
def zeroChainTask : ChainTask :=
  { id := 0, creator := "", task_hash := [], data_hash := [], is_success := false,
    selected_nodes := [], commitments := [], nonces := [], results := [],
    result_disclosed_rounds := [], result_node := "", aborted := false,
    timeout := 0 }

/-- C1: a contract call that starts with both waiting fields empty submits the
call, but at the moment the receipt wait begins the runner state still has
waiting_tx_method and waiting_tx_hash empty, and no persist of the pair
(method, hash) ever appears before the wait: the submit path of
_call_task_contract_method never writes the pair into the state, contradicting
the claim that (method, hash) is persisted before awaiting the receipt. -/
theorem call_method_submit_does_not_persist_pair :
    (call_task_contract_method freshDiscloseState "discloseTaskResult"
        (.disclose_task_result 7 2 [170, 187]) [171, 205] .ok).stateAtWait =
      some freshDiscloseState ∧
    freshDiscloseState.waiting_tx_method = "" ∧
    freshDiscloseState.waiting_tx_hash = [] ∧
    (call_task_contract_method freshDiscloseState "discloseTaskResult"
        (.disclose_task_result 7 2 [170, 187]) [171, 205] .ok).trace =
      [.chain (.disclose_task_result 7 2 [170, 187]),
        .persist freshDiscloseState] := by
  refine ⟨rfl, rfl, rfl, ?_⟩
  rfl

/-- C2: when the stored waiting method equals the requested method and a
waiting hash is stored, the coordinator submits nothing, builds the waiter from
the stored hash, and on a successful receipt clears both waiting fields; when a
waiting hash is stored but the stored method differs from the requested one,
the call fails with an error and nothing is submitted. -/
theorem call_method_resume_and_mismatch (s : TaskState) (method : String)
    (call : ChainCall) (newTxHash : Bytes) (txOut : TxOutcome) :
    (s.waiting_tx_method = method → s.waiting_tx_hash ≠ [] →
      chainCalls (call_task_contract_method s method call newTxHash txOut).trace = [] ∧
      (call_task_contract_method s method call newTxHash txOut).waitedHash =
        some s.waiting_tx_hash ∧
      (txOut = .ok →
        (call_task_contract_method s method call newTxHash txOut).state.waiting_tx_method
            = "" ∧
        (call_task_contract_method s method call newTxHash txOut).state.waiting_tx_hash
            = [])) ∧
    (s.waiting_tx_hash ≠ [] → s.waiting_tx_method ≠ method →
      (call_task_contract_method s method call newTxHash txOut).outcome =
        .valueError "Error state waiting tx method" ∧
      chainCalls (call_task_contract_method s method call newTxHash txOut).trace = []) := by
  constructor
  · intro h1 h2
    have hfirst : ¬ (s.waiting_tx_method = "" ∧ s.waiting_tx_hash = []) := by
      intro hc
      exact h2 hc.2
    have hsecond : s.waiting_tx_method = method ∧ s.waiting_tx_hash ≠ [] := ⟨h1, h2⟩
    cases txOut with
    | ok =>
        simp [call_task_contract_method, hfirst, hsecond, chainCalls]
    | reverted r =>
        simp [call_task_contract_method, hfirst, hsecond, chainCalls]
  · intro h2 h3
    have hfirst : ¬ (s.waiting_tx_method = "" ∧ s.waiting_tx_hash = []) := by
      intro hc
      exact h2 hc.2
    have hsecond : ¬ (s.waiting_tx_method = method ∧ s.waiting_tx_hash ≠ []) := by
      intro hc
      exact h3 hc.1
    cases txOut with
    | ok =>
        simp [call_task_contract_method, hfirst, hsecond, chainCalls]
    | reverted r =>
        simp [call_task_contract_method, hfirst, hsecond, chainCalls]

/-- C2 witness: the resume and mismatch branches evaluated on concrete states. -/
theorem call_method_resume_and_mismatch_witness :
    (chainCalls (call_task_contract_method resumeDiscloseState "discloseTaskResult"
        (.disclose_task_result 7 2 [170, 187]) [] .ok).trace = []) ∧
    ((call_task_contract_method resumeDiscloseState "reportTaskError"
        (.report_task_error 7 2) [] .ok).outcome =
      .valueError "Error state waiting tx method") := by
  constructor
  · exact ((call_method_resume_and_mismatch resumeDiscloseState "discloseTaskResult"
      (.disclose_task_result 7 2 [170, 187]) [] .ok).1 rfl (by decide)).1
  · exact ((call_method_resume_and_mismatch resumeDiscloseState "reportTaskError"
      (.report_task_error 7 2) [] .ok).2 (by decide) (by decide)).1

/-- C3 counterexample: resuming a stored disclose transaction whose receipt
reports an unhandled revert reason propagates the revert, but the waiting
fields are NOT cleared: waiter.wait raises before the clearing state-context
is entered, so the state still carries the stored method and hash, refuting
the claim that the coordinator clears both fields before propagating. -/
theorem coordinator_revert_keeps_waiting_fields :
    (call_task_contract_method resumeDiscloseState "discloseTaskResult"
        (.disclose_task_result 7 2 [170, 187]) [] (.reverted "other reason")).outcome =
      .txReverted "other reason" ∧
    CoordResult.state (call_task_contract_method resumeDiscloseState "discloseTaskResult"
        (.disclose_task_result 7 2 [170, 187]) []
        (.reverted "other reason")) = resumeDiscloseState ∧
    resumeDiscloseState.waiting_tx_method = "discloseTaskResult" ∧
    resumeDiscloseState.waiting_tx_hash = [18, 52] := by
  refine ⟨rfl, rfl, rfl, rfl⟩

/-- C3 amended: when the awaited receipt reports a revert, the coordinator
propagates the revert error to its caller and leaves the task state unchanged
(in particular the waiting fields are not cleared); this holds both on the
resume path and on the fresh-submit path of a supported method. -/
theorem coordinator_revert_propagates_state_unchanged (s : TaskState)
    (method : String) (call : ChainCall) (newTxHash : Bytes) (reason : String) :
    (s.waiting_tx_method = method → s.waiting_tx_hash ≠ [] →
      (call_task_contract_method s method call newTxHash (.reverted reason)).outcome =
        .txReverted reason ∧
      (call_task_contract_method s method call newTxHash (.reverted reason)).state = s) ∧
    (s.waiting_tx_method = "" → s.waiting_tx_hash = [] → supported_task_method method = true →
      (call_task_contract_method s method call newTxHash (.reverted reason)).outcome =
        .txReverted reason ∧
      (call_task_contract_method s method call newTxHash (.reverted reason)).state = s) := by
  constructor
  · intro h1 h2
    have hfirst : ¬ (s.waiting_tx_method = "" ∧ s.waiting_tx_hash = []) := by
      intro hc
      exact h2 hc.2
    have hsecond : s.waiting_tx_method = method ∧ s.waiting_tx_hash ≠ [] := ⟨h1, h2⟩
    simp [call_task_contract_method, hfirst, hsecond]
  · intro h1 h2 h3
    simp [call_task_contract_method, h1, h2, h3]

/-- C3 amended witness: both revert paths evaluated on concrete states. -/
theorem coordinator_revert_propagates_state_unchanged_witness :
    ((call_task_contract_method resumeDiscloseState "discloseTaskResult"
        (.disclose_task_result 7 2 [170, 187]) [] (.reverted "r")).state =
      resumeDiscloseState) ∧
    ((call_task_contract_method freshDiscloseState "discloseTaskResult"
        (.disclose_task_result 7 2 [170, 187]) [9] (.reverted "r")).state =
      freshDiscloseState) := by
  constructor
  · exact ((coordinator_revert_propagates_state_unchanged resumeDiscloseState
      "discloseTaskResult" (.disclose_task_result 7 2 [170, 187]) [] "r").1
      rfl (by decide)).2
  · exact ((coordinator_revert_propagates_state_unchanged freshDiscloseState
      "discloseTaskResult" (.disclose_task_result 7 2 [170, 187]) [9] "r").2
      rfl rfl (by decide)).2

/-- Coordinator equation on the fresh-submit path with a successful receipt:
the call is submitted and the (already empty) waiting fields are written back
inside a persisted state-context after the wait. -/
theorem coord_submit_ok (s : TaskState) (method : String) (call : ChainCall)
    (newTxHash : Bytes) (hw1 : s.waiting_tx_method = "")
    (hw2 : s.waiting_tx_hash = []) (hm : supported_task_method method = true) :
    call_task_contract_method s method call newTxHash .ok =
      { state := s, trace := [.chain call, .persist s],
        waitedHash := some newTxHash, stateAtWait := some s, outcome := .ok } := by
  have h : ({ s with waiting_tx_hash := [], waiting_tx_method := "" } : TaskState) = s := by
    rw [← hw1, ← hw2]
  simp [call_task_contract_method, hw1, hw2, hm, h]

/-- Coordinator equation on the fresh-submit path with a reverted receipt:
the call is submitted, the revert propagates and the state is unchanged. -/
theorem coord_submit_reverted (s : TaskState) (method : String) (call : ChainCall)
    (newTxHash : Bytes) (reason : String) (hw1 : s.waiting_tx_method = "")
    (hw2 : s.waiting_tx_hash = []) (hm : supported_task_method method = true) :
    call_task_contract_method s method call newTxHash (.reverted reason) =
      { state := s, trace := [.chain call], waitedHash := some newTxHash,
        stateAtWait := some s, outcome := .txReverted reason } := by
  simp [call_task_contract_method, hw1, hw2, hm]

/-- C4: when the commitment submission driven by result_ready reverts with a
reason containing Task is aborted, the handler returns normally instead of
propagating the revert, the final status is Aborted, and the trace shows the
persisted Aborted state written before reportTaskError is driven through the
same coordinator with the task id and the state round. -/
theorem commit_revert_aborted_reports_error (s : TaskState)
    (ev_hashes ev_files : List String) (H : Bytes → Bytes → Bytes) (nonce : Bytes)
    (reason : String) (reportOut : TxOutcome)
    (hst : s.status = .Executing) (hres : s.result = [])
    (hw1 : s.waiting_tx_method = "") (hw2 : s.waiting_tx_hash = [])
    (hr : reasonHasTaskAborted reason = true) :
    (result_ready s ev_hashes ev_files H nonce (.reverted reason)
      reportOut).exit = .ok ∧
    (result_ready s ev_hashes ev_files H nonce (.reverted reason)
      reportOut).state.status = .Aborted ∧
    (∃ t, (result_ready s ev_hashes ev_files H nonce (.reverted reason)
      reportOut).trace =
      Effect.chain (.submit_task_result_commitment s.task_id s.round
          (make_result_commitments H nonce ev_hashes).2.1
          (make_result_commitments H nonce ev_hashes).2.2) ::
        Effect.persist { s with status := .Aborted } ::
        Effect.chain (.report_task_error s.task_id s.round) :: t) := by
  obtain ⟨tid, rnd, tmo, st, res, dis, fls, wm, wh⟩ := s
  dsimp only at hst hres hw1 hw2
  subst hst
  subst hres
  subst hw1
  subst hw2
  cases reportOut with
  | ok =>
      refine ⟨?_, ?_, ?_⟩
      · simp +decide [result_ready, report_error, call_task_contract_method,
          supported_task_method, hr]
      · simp +decide [result_ready, report_error, call_task_contract_method,
          supported_task_method, hr]
      · refine ⟨[Effect.persist (TaskState.mk tid rnd tmo .Aborted [] dis fls "" []),
          Effect.persist (TaskState.mk tid rnd tmo .Aborted [] dis fls "" [])], ?_⟩
        simp +decide [result_ready, report_error, call_task_contract_method,
          supported_task_method, hr]
  | reverted r2 =>
      refine ⟨?_, ?_, ?_⟩
      · simp +decide [result_ready, report_error, call_task_contract_method,
          supported_task_method, hr]
      · simp +decide [result_ready, report_error, call_task_contract_method,
          supported_task_method, hr]
      · refine ⟨[Effect.persist (TaskState.mk tid rnd tmo .Aborted [] dis fls "" [])], ?_⟩
        simp +decide [result_ready, report_error, call_task_contract_method,
          supported_task_method, hr]

/-- C4 witness: the error-report path evaluated on a concrete executing
state. -/
theorem commit_revert_aborted_reports_error_witness :
    (result_ready executingState ["0xaa"] ["a.png"] (fun r n => r ++ n) [1]
        (.reverted "Task is aborted") .ok).exit = .ok ∧
    (result_ready executingState ["0xaa"] ["a.png"] (fun r n => r ++ n) [1]
        (.reverted "Task is aborted") .ok).state.status = .Aborted := by
  have h := commit_revert_aborted_reports_error executingState ["0xaa"] ["a.png"]
    (fun r n => r ++ n) [1] "Task is aborted" .ok rfl rfl rfl rfl (by decide)
  exact ⟨h.1, h.2.1⟩

/-- C5: delivering TaskResultCommitmentsReady twice to a runner that has
uploaded its result and not yet disclosed produces exactly one
discloseTaskResult submission: the first delivery submits, sets disclosed and
status Disclosed in the same state-context, and the second delivery blocks on
its wait-for-status barrier and submits nothing. -/
theorem disclose_idempotent (s : TaskState) (out2 : TxOutcome)
    (hst : s.status = .ResultUploaded) (hres : s.result ≠ [])
    (hd : s.disclosed = false)
    (hw1 : s.waiting_tx_method = "") (hw2 : s.waiting_tx_hash = []) :
    discloseCount ((commitment_ready s .ok).trace ++
        (commitment_ready (commitment_ready s .ok).state out2).trace) = 1 ∧
    (commitment_ready s .ok).state.disclosed = true ∧
    (commitment_ready s .ok).state.status = .Disclosed ∧
    (commitment_ready (commitment_ready s .ok).state out2).exit = .blocked := by
  have hc := coord_submit_ok s "discloseTaskResult"
    (.disclose_task_result s.task_id s.round s.result) [] hw1 hw2 (by decide)
  simp [commitment_ready, hst, hres, hd, hc, discloseCount, chainCalls, isDiscloseCall]

/-- C5 witness: the double delivery evaluated on a concrete uploaded state. -/
theorem disclose_idempotent_witness :
    discloseCount ((commitment_ready freshDiscloseState .ok).trace ++
        (commitment_ready (commitment_ready freshDiscloseState .ok).state .ok).trace)
      = 1 := by
  exact (disclose_idempotent freshDiscloseState .ok rfl (by decide) rfl rfl rfl).1

/-- C10: delivering TaskResultReady twice to an executing runner yields at
most one submitTaskResultCommitment submission: the first delivery submits
exactly when the stored result is empty, the second delivery blocks on its
wait-for-status barrier and submits nothing, and outside the specially
handled abort revert the first delivery records the event files and sets
status ResultUploaded. -/
theorem commit_idempotent (s : TaskState) (h1 f1 h2 f2 : List String)
    (Ha Hb : Bytes → Bytes → Bytes) (n1 n2 : Bytes) (o1 r1 o2 r2 : TxOutcome)
    (hst : s.status = .Executing) (hw1 : s.waiting_tx_method = "")
    (hw2 : s.waiting_tx_hash = []) :
    commitCount (result_ready s h1 f1 Ha n1 o1 r1).trace =
      (if s.result = [] then 1 else 0) ∧
    (result_ready (result_ready s h1 f1 Ha n1 o1 r1).state h2 f2 Hb n2 o2 r2).exit =
      .blocked ∧
    commitCount ((result_ready s h1 f1 Ha n1 o1 r1).trace ++
      (result_ready (result_ready s h1 f1 Ha n1 o1 r1).state h2 f2 Hb n2 o2
        r2).trace) ≤ 1 ∧
    (isAbortRevert o1 = false →
      (result_ready s h1 f1 Ha n1 o1 r1).state.status = .ResultUploaded ∧
      (result_ready s h1 f1 Ha n1 o1 r1).state.files = f1) := by
  obtain ⟨tid, rnd, tmo, st, res, dis, fls, wm, wh⟩ := s
  dsimp only at hst hw1 hw2
  subst hst
  subst hw1
  subst hw2
  by_cases hres : res = []
  · subst hres
    cases o1 with
    | ok =>
        simp +decide [result_ready, report_error, call_task_contract_method,
          supported_task_method, commitCount, chainCalls, isCommitCall, isAbortRevert]
    | reverted rr =>
        by_cases hab : reasonHasTaskAborted rr = true
        · cases r1 <;>
            simp +decide [result_ready, report_error, call_task_contract_method,
              supported_task_method, commitCount, chainCalls, isCommitCall,
              isAbortRevert, hab]
        · rw [Bool.not_eq_true] at hab
          simp +decide [result_ready, report_error, call_task_contract_method,
            supported_task_method, commitCount, chainCalls, isCommitCall,
            isAbortRevert, hab]
  · simp +decide [result_ready, hres, commitCount, chainCalls, isCommitCall,
      isAbortRevert]

/-- C10 witness: the double delivery evaluated on a concrete executing
state. -/
theorem commit_idempotent_witness :
    commitCount ((result_ready executingState ["0xaa"] ["a.png"]
        (fun r n => r ++ n) [1] .ok .ok).trace ++
      (result_ready (result_ready executingState ["0xaa"] ["a.png"]
          (fun r n => r ++ n) [1] .ok .ok).state
        ["0xaa"] ["a.png"] (fun r n => r ++ n) [1] .ok .ok).trace) ≤ 1 ∧
    (result_ready executingState ["0xaa"] ["a.png"] (fun r n => r ++ n) [1]
      .ok .ok).state.status = .ResultUploaded := by
  have h := commit_idempotent executingState ["0xaa"] ["a.png"] ["0xaa"] ["a.png"]
    (fun r n => r ++ n) (fun r n => r ++ n) [1] [1] .ok .ok .ok .ok rfl rfl rfl
  exact ⟨h.2.2.1, (h.2.2.2 rfl).1⟩

/-- Helper: the coordinator never changes the status field of the state it
returns. -/
theorem coord_state_status (s : TaskState) (method : String) (call : ChainCall)
    (newTxHash : Bytes) (txOut : TxOutcome) :
    (call_task_contract_method s method call newTxHash txOut).state.status =
      s.status := by
  unfold call_task_contract_method
  repeat' split
  all_goals rfl

/-- Helper: report_error always leaves the status at Aborted. -/
theorem report_error_status (s : TaskState) (rep : TxOutcome) :
    (report_error s rep).state.status = .Aborted := by
  by_cases h1 : s.waiting_tx_method = "" ∧ s.waiting_tx_hash = []
  · cases rep <;>
      simp +decide [report_error, call_task_contract_method, h1.1, h1.2,
        supported_task_method]
  · by_cases h2 : s.waiting_tx_method = "reportTaskError" ∧ s.waiting_tx_hash ≠ []
    · cases rep <;> simp [report_error, call_task_contract_method, h1, h2]
    · cases rep <;> simp [report_error, call_task_contract_method, h1, h2]

/-- Helper: status outcomes of task_created. -/
theorem task_created_status (s : TaskState) (r : Nat) (d ro : Bool)
    (w : WorkerOutcome) (whs wfs : List String) (rep : TxOutcome) :
    (task_created s r d ro w whs wfs rep).state.status = s.status ∨
    (s.status = .Pending ∧
      ((task_created s r d ro w whs wfs rep).state.status = .Executing ∨
        (task_created s r d ro w whs wfs rep).state.status = .Aborted)) := by
  by_cases hst : s.status = TaskStatus.Pending
  · by_cases hro : ro = false
    · left
      simp [task_created, hst, hro]
    · by_cases hd : d = true
      · cases w with
        | ok => exact Or.inr ⟨hst, Or.inl (by simp [task_created, hst, hro, hd])⟩
        | taskInvalid => left; simp [task_created, hst, hro, hd]
        | failed => left; simp [task_created, hst, hro, hd]
      · cases w with
        | ok => exact Or.inr ⟨hst, Or.inl (by simp [task_created, hst, hro, hd])⟩
        | taskInvalid =>
            exact Or.inr ⟨hst,
              Or.inr (by simp [task_created, hst, hro, hd, report_error_status])⟩
        | failed => left; simp [task_created, hst, hro, hd]
  · left
    simp [task_created, hst]

/-- Helper: status outcomes of result_ready. -/
theorem result_ready_status (s : TaskState) (eh ef : List String)
    (H : Bytes → Bytes → Bytes) (n : Bytes) (o rep : TxOutcome) :
    (result_ready s eh ef H n o rep).state.status = s.status ∨
    (s.status = .Executing ∧
      ((result_ready s eh ef H n o rep).state.status = .ResultUploaded ∨
        (result_ready s eh ef H n o rep).state.status = .Aborted)) := by
  by_cases hst : s.status = TaskStatus.Executing
  · by_cases hres : s.result = []
    · rcases ho : (call_task_contract_method s "submitTaskResultCommitment"
          (ChainCall.submit_task_result_commitment s.task_id s.round
            (make_result_commitments H n eh).2.1
            (make_result_commitments H n eh).2.2) [] o).outcome with _ | m | rr
      · exact Or.inr ⟨hst, Or.inl (by simp [result_ready, hst, hres, ho])⟩
      · left
        have hcs := coord_state_status s "submitTaskResultCommitment"
          (ChainCall.submit_task_result_commitment s.task_id s.round
            (make_result_commitments H n eh).2.1
            (make_result_commitments H n eh).2.2) [] o
        simp [result_ready, hst, hres, ho, hcs]
      · by_cases hab : reasonHasTaskAborted rr = true
        · exact Or.inr ⟨hst,
            Or.inr (by simp [result_ready, hst, hres, ho, hab, report_error_status])⟩
        · rw [Bool.not_eq_true] at hab
          exact Or.inr ⟨hst, Or.inl (by simp [result_ready, hst, hres, ho, hab])⟩
    · exact Or.inr ⟨hst, Or.inl (by simp [result_ready, hst, hres])⟩
  · left
    simp [result_ready, hst]

/-- Helper: status outcomes of commitment_ready. -/
theorem commitment_ready_status (s : TaskState) (o : TxOutcome) :
    (commitment_ready s o).state.status = s.status ∨
    (s.status = .ResultUploaded ∧ (commitment_ready s o).state.status = .Disclosed) := by
  by_cases hst : s.status = TaskStatus.ResultUploaded
  · by_cases hres : s.result = []
    · left
      simp [commitment_ready, hst, hres]
    · by_cases hd : s.disclosed = false
      · rcases ho : (call_task_contract_method s "discloseTaskResult"
            (ChainCall.disclose_task_result s.task_id s.round s.result) []
            o).outcome with _ | m | rr
        · exact Or.inr ⟨hst, by simp [commitment_ready, hst, hres, hd, ho]⟩
        · left
          have hcs := coord_state_status s "discloseTaskResult"
            (ChainCall.disclose_task_result s.task_id s.round s.result) [] o
          simp [commitment_ready, hst, hres, hd, ho, hcs]
        · left
          have hcs := coord_state_status s "discloseTaskResult"
            (ChainCall.disclose_task_result s.task_id s.round s.result) [] o
          simp [commitment_ready, hst, hres, hd, ho, hcs]
      · exact Or.inr ⟨hst, by simp [commitment_ready, hst, hres, hd]⟩
  · left
    simp [commitment_ready, hst]

/-- Helper: status outcomes of task_success. -/
theorem task_success_status (s : TaskState) (rn acc : String) (up : Bool)
    (o : TxOutcome) :
    (task_success s rn acc up o).state.status = s.status ∨
    (s.status = .Disclosed ∧ (task_success s rn acc up o).state.status = .Success) := by
  by_cases hst : s.status = TaskStatus.Disclosed
  · by_cases hrn : rn = acc
    · by_cases hup : up = false
      · left
        simp [task_success, hst, hrn, hup]
      · rcases ho : (call_task_contract_method s "reportResultsUploaded"
            (ChainCall.report_results_uploaded s.task_id s.round) [] o).outcome
            with _ | m | rr
        · exact Or.inr ⟨hst, by simp [task_success, hst, hrn, hup, ho]⟩
        · left
          have hcs := coord_state_status s "reportResultsUploaded"
            (ChainCall.report_results_uploaded s.task_id s.round) [] o
          simp [task_success, hst, hrn, hup, ho, hcs]
        · left
          have hcs := coord_state_status s "reportResultsUploaded"
            (ChainCall.report_results_uploaded s.task_id s.round) [] o
          simp [task_success, hst, hrn, hup, ho, hcs]
    · exact Or.inr ⟨hst, by simp [task_success, hst, hrn]⟩
  · left
    simp [task_success, hst]

/-- Helper: the possible status moves of one handled event. -/
theorem handle_status_cases (o : Oracle) (s : TaskState) (e : TaskEvent) :
    (handleInferenceEvent o s e).state.status = s.status ∨
    (handleInferenceEvent o s e).state.status = .Aborted ∨
    (s.status = .Pending ∧ (handleInferenceEvent o s e).state.status = .Executing) ∨
    (s.status = .Executing ∧
      (handleInferenceEvent o s e).state.status = .ResultUploaded) ∨
    (s.status = .ResultUploaded ∧
      (handleInferenceEvent o s e).state.status = .Disclosed) ∨
    (s.status = .Disclosed ∧ (handleInferenceEvent o s e).state.status = .Success) := by
  cases e with
  | taskCreated tid r =>
      rcases task_created_status s r o.distributed o.relayOk o.worker
          o.workerHashes o.workerFiles o.reportOut with h | ⟨hp, h2 | h2⟩
      · exact Or.inl h
      · exact Or.inr (Or.inr (Or.inl ⟨hp, h2⟩))
      · exact Or.inr (Or.inl h2)
  | taskResultReady tid hs fs =>
      rcases result_ready_status s hs fs o.hashFn o.nonce o.txOut o.reportOut
          with h | ⟨hp, h2 | h2⟩
      · exact Or.inl h
      · exact Or.inr (Or.inr (Or.inr (Or.inl ⟨hp, h2⟩)))
      · exact Or.inr (Or.inl h2)
  | taskResultCommitmentsReady tid =>
      rcases commitment_ready_status s o.txOut with h | ⟨hp, h2⟩
      · exact Or.inl h
      · exact Or.inr (Or.inr (Or.inr (Or.inr (Or.inl ⟨hp, h2⟩))))
  | taskSuccess tid rn =>
      rcases task_success_status s rn o.account o.uploadOk o.txOut with h | ⟨hp, h2⟩
      · exact Or.inl h
      · exact Or.inr (Or.inr (Or.inr (Or.inr (Or.inr ⟨hp, h2⟩))))
  | taskAborted tid =>
      exact Or.inr (Or.inl rfl)

/-- C9 counterexample: a runner whose status is Success still handles a
TaskAborted event by setting status Aborted, so Success is not terminal at
the handler level: a handler changes the status after Success was reached. -/
theorem success_changed_by_task_aborted :
    successState.status = .Success ∧
    (handleInferenceEvent plainOracle successState (.taskAborted 7)).state.status =
      .Aborted ∧
    TaskStatus.Aborted ≠ TaskStatus.Success := ⟨rfl, rfl, by decide⟩

/-- C9 amended: for every handled event the status either stays, moves one
step forward along the declared order Pending, Executing, ResultUploaded,
Disclosed, Success, or jumps to Aborted; Aborted is terminal (no handler
changes it), while from Success the only possible change is the jump to
Aborted performed by the TaskAborted handler. -/
theorem status_forward_or_abort (o : Oracle) (s : TaskState) (e : TaskEvent) :
    ((handleInferenceEvent o s e).state.status = .Aborted ∨
      statusIdx s.status ≤ statusIdx (handleInferenceEvent o s e).state.status) ∧
    (s.status = .Aborted → (handleInferenceEvent o s e).state.status = .Aborted) ∧
    (s.status = .Success →
      ((handleInferenceEvent o s e).state.status = .Success ∨
        (handleInferenceEvent o s e).state.status = .Aborted)) := by
  rcases handle_status_cases o s e with h | h | ⟨h1, h2⟩ | ⟨h1, h2⟩ | ⟨h1, h2⟩ | ⟨h1, h2⟩
  · refine ⟨Or.inr (by rw [h]), fun ha => h.trans ha, fun hs => Or.inl (h.trans hs)⟩
  · exact ⟨Or.inl h, fun _ => h, fun _ => Or.inr h⟩
  · refine ⟨Or.inr (by rw [h1, h2]; decide), fun ha => ?_, fun hs => ?_⟩
    · exact absurd (h1.symm.trans ha) (by decide)
    · exact absurd (h1.symm.trans hs) (by decide)
  · refine ⟨Or.inr (by rw [h1, h2]; decide), fun ha => ?_, fun hs => ?_⟩
    · exact absurd (h1.symm.trans ha) (by decide)
    · exact absurd (h1.symm.trans hs) (by decide)
  · refine ⟨Or.inr (by rw [h1, h2]; decide), fun ha => ?_, fun hs => ?_⟩
    · exact absurd (h1.symm.trans ha) (by decide)
    · exact absurd (h1.symm.trans hs) (by decide)
  · refine ⟨Or.inr (by rw [h1, h2]; decide), fun ha => ?_, fun hs => ?_⟩
    · exact absurd (h1.symm.trans ha) (by decide)
    · exact absurd (h1.symm.trans hs) (by decide)

/-- C9 amended witness: terminality of Aborted evaluated on a concrete
aborted state. -/
theorem status_forward_or_abort_witness :
    (handleInferenceEvent plainOracle abortedState (.taskCreated 7 2)).state.status =
      .Aborted :=
  (status_forward_or_abort plainOracle abortedState (.taskCreated 7 2)).2.1 rfl

/-- Helper: every buffered pair is acked when drain runs on a terminal
state. -/
theorem drain_ack_mem (s : TaskState) (dq : List (Nat × TaskEvent))
    (ht : s.status = .Aborted ∨ s.status = .Success) (p : Nat × TaskEvent)
    (hp : p ∈ dq) : Effect.ackEv p.1 ∈ drainEffects (some s) dq := by
  simp only [drainEffects]
  rw [if_pos ht]
  exact List.mem_append_left _ (List.mem_map_of_mem _ hp)

/-- Helper: cleanup runs when drain runs on a terminal state. -/
theorem drain_cleanup_mem (s : TaskState) (dq : List (Nat × TaskEvent))
    (ht : s.status = .Aborted ∨ s.status = .Success) :
    Effect.cleanupRun ∈ drainEffects (some s) dq := by
  simp only [drainEffects]
  rw [if_pos ht]
  exact List.mem_append_right _ (List.mem_singleton_self _)

/-- Helper: every buffered pair is no-acked when drain runs on a non-terminal
state. -/
theorem drain_noack_mem (s : TaskState) (dq : List (Nat × TaskEvent))
    (ht : ¬(s.status = .Aborted ∨ s.status = .Success)) (p : Nat × TaskEvent)
    (hp : p ∈ dq) : Effect.noAckEv p.1 ∈ drainEffects (some s) dq := by
  simp only [drainEffects]
  rw [if_neg ht]
  exact List.mem_map_of_mem _ hp

/-- Helper: every exit path of run ends with the drain of the buffered pairs
against the state run finishes with. -/
theorem run_trace_split (initRes : InitResult) (now : Int) (loopExit : LoopExit)
    (sLoop : TaskState) (dq : List (Nat × TaskEvent)) (cOut : CancelOutcome) :
    ∃ pre s, (run initRes now loopExit sLoop dq cOut).finalState = some s ∧
      (run initRes now loopExit sLoop dq cOut).trace =
        pre ++ drainEffects (some s) dq := by
  unfold run
  split
  · exact ⟨[], initRes.state, rfl, rfl⟩
  · split
    · exact ⟨Effect.persist { initRes.state with status := .Aborted } ::
        (cancel_task ({ initRes.state with status := .Aborted } : TaskState).task_id
          cOut).trace,
        { initRes.state with status := .Aborted }, rfl, rfl⟩
    · cases loopExit with
      | timedOut =>
          exact ⟨Effect.persist { sLoop with status := .Aborted } ::
            (cancel_task ({ sLoop with status := .Aborted } : TaskState).task_id
              cOut).trace,
            { sLoop with status := .Aborted }, rfl, rfl⟩
      | cancelled => exact ⟨[], sLoop, rfl, rfl⟩
      | finished => exact ⟨[], sLoop, rfl, rfl⟩

/-- C6: whatever path run exits through, when the state it finishes with has
terminal status (Success or Aborted) every buffered but unacked (ack_id,
event) pair is acked and cleanup runs, and otherwise every buffered pair is
no-acked; the drain runs under the shielded ten second budget. -/
theorem drain_ack_policy (initRes : InitResult) (now : Int) (loopExit : LoopExit)
    (sLoop : TaskState) (dq : List (Nat × TaskEvent)) (cOut : CancelOutcome) :
    drainShieldTimeout = 10 ∧
    (∀ s, (run initRes now loopExit sLoop dq cOut).finalState = some s →
      ((s.status = TaskStatus.Success ∨ s.status = TaskStatus.Aborted) →
        (∀ p, p ∈ dq →
          Effect.ackEv p.1 ∈ (run initRes now loopExit sLoop dq cOut).trace) ∧
        Effect.cleanupRun ∈ (run initRes now loopExit sLoop dq cOut).trace) ∧
      (¬(s.status = TaskStatus.Success ∨ s.status = TaskStatus.Aborted) →
        ∀ p, p ∈ dq →
          Effect.noAckEv p.1 ∈ (run initRes now loopExit sLoop dq cOut).trace)) := by
  refine ⟨rfl, ?_⟩
  intro s hs
  obtain ⟨pre, s2, hfs, htr⟩ := run_trace_split initRes now loopExit sLoop dq cOut
  rw [hfs] at hs
  injection hs with hs2
  subst hs2
  constructor
  · intro ht
    constructor
    · intro p hp
      rw [htr]
      exact List.mem_append_right _ (drain_ack_mem s2 dq ht.symm p hp)
    · rw [htr]
      exact List.mem_append_right _ (drain_cleanup_mem s2 dq ht.symm)
  · intro ht p hp
    rw [htr]
    refine List.mem_append_right _ (drain_noack_mem s2 dq ?_ p hp)
    intro hc
    exact ht hc.symm

/-- C6 witness: a terminal exit acks a buffered event and runs cleanup. -/
theorem drain_ack_policy_witness :
    Effect.ackEv 5 ∈ (run (InitResult.mk false successState false) 0 .finished
      successState [(5, .taskAborted 7)] .ok).trace ∧
    Effect.cleanupRun ∈ (run (InitResult.mk false successState false) 0 .finished
      successState [(5, .taskAborted 7)] .ok).trace := by
  have h := (drain_ack_policy (InitResult.mk false successState false) 0 .finished
    successState [(5, .taskAborted 7)] .ok).2 successState rfl
  exact ⟨(h.1 (Or.inl rfl)).1 (5, .taskAborted 7) (by simp),
    (h.1 (Or.inl rfl)).2⟩

/-- Helper: chainCalls distributes over trace concatenation. -/
theorem chainCalls_append (l1 l2 : List Effect) :
    chainCalls (l1 ++ l2) = chainCalls l1 ++ chainCalls l2 := by
  simp [chainCalls, List.filterMap_append]

/-- Helper: a chain submission is never produced while draining. -/
theorem chainCalls_drain (st : Option TaskState) (dq : List (Nat × TaskEvent)) :
    chainCalls (drainEffects st dq) = [] := by
  have hack : ∀ l : List (Nat × TaskEvent),
      chainCalls (l.map fun p => Effect.ackEv p.1) = [] := by
    intro l
    induction l with
    | nil => rfl
    | cons a t ih => simp [chainCalls, List.filterMap_cons]
  have hnoack : ∀ l : List (Nat × TaskEvent),
      chainCalls (l.map fun p => Effect.noAckEv p.1) = [] := by
    intro l
    induction l with
    | nil => rfl
    | cons a t ih => simp [chainCalls, List.filterMap_cons]
  cases st with
  | none => exact hnoack dq
  | some s =>
      by_cases ht : s.status = .Aborted ∨ s.status = .Success
      · have hd : drainEffects (some s) dq =
            (dq.map fun p => Effect.ackEv p.1) ++ [Effect.cleanupRun] := by
          simp only [drainEffects]
          rw [if_pos ht]
        rw [hd, chainCalls_append, hack dq]
        rfl
      · have hd : drainEffects (some s) dq = dq.map fun p => Effect.noAckEv p.1 := by
          simp only [drainEffects]
          rw [if_neg ht]
        rw [hd]
        exact hnoack dq

/-- Helper: chainCalls drops a persist at the head of a trace. -/
theorem chainCalls_cons_persist (s : TaskState) (l : List Effect) :
    chainCalls (Effect.persist s :: l) = chainCalls l := by
  simp [chainCalls, List.filterMap_cons]

/-- Helper: chainCalls keeps a submission at the head of a trace. -/
theorem chainCalls_cons_chain (c : ChainCall) (l : List Effect) :
    chainCalls (Effect.chain c :: l) = c :: chainCalls l := by
  simp [chainCalls, List.filterMap_cons]

/-- Helper: the cancelTask transaction never raises to run, whatever its
outcome. -/
theorem cancel_task_never_raises (tid : Nat) (cOut : CancelOutcome) :
    (cancel_task tid cOut).raised = false := by
  cases cOut <;> rfl

/-- Helper: the cancelTask transaction is submitted exactly once, whatever
its outcome. -/
theorem cancel_task_trace (tid : Nat) (cOut : CancelOutcome) :
    (cancel_task tid cOut).trace = [Effect.chain (.cancel_task_call tid)] := by
  cases cOut <;> rfl

/-- C7: when init succeeded and the deadline has passed (either the budget is
already non-positive on entry or the receive loop was ended by the fail-after
deadline), run persists the state with status Aborted and then submits
cancelTask exactly once, and no error of the cancel call is raised. -/
theorem deadline_aborts_and_cancels (initRes : InitResult) (now : Int)
    (loopExit : LoopExit) (sLoop : TaskState) (dq : List (Nat × TaskEvent))
    (cOut : CancelOutcome) (hok : initRes.ok = true)
    (hdl : initRes.state.timeout - now ≤ 0 ∨ loopExit = .timedOut) :
    (∀ s, (run initRes now loopExit sLoop dq cOut).finalState = some s →
      s.status = .Aborted ∧
      (run initRes now loopExit sLoop dq cOut).trace =
        Effect.persist s :: Effect.chain (.cancel_task_call s.task_id) ::
          drainEffects (some s) dq) ∧
    cancelCount (run initRes now loopExit sLoop dq cOut).trace = 1 ∧
    (run initRes now loopExit sLoop dq cOut).raised = false := by
  have hninit : ¬ initRes.ok = false := by simp [hok]
  by_cases ht : initRes.state.timeout - now ≤ 0
  · have hrun : run initRes now loopExit sLoop dq cOut =
        { finalState := some { initRes.state with status := .Aborted },
          trace := Effect.persist { initRes.state with status := .Aborted } ::
            (cancel_task ({ initRes.state with status := .Aborted } : TaskState).task_id
              cOut).trace ++
            drainEffects (some { initRes.state with status := .Aborted }) dq,
          raised := (cancel_task
            ({ initRes.state with status := .Aborted } : TaskState).task_id
            cOut).raised } := by
      unfold run
      rw [if_neg hninit, if_pos ht]
    rw [hrun]
    refine ⟨?_, ?_, cancel_task_never_raises _ _⟩
    · intro s hs
      injection hs with hs2
      subst hs2
      refine ⟨rfl, ?_⟩
      rw [cancel_task_trace]
      rfl
    · rw [cancel_task_trace]
      simp [cancelCount, chainCalls_cons_persist, chainCalls_cons_chain,
        chainCalls_drain, isCancelCall]
  · have hlt : loopExit = LoopExit.timedOut := by
      rcases hdl with h | h
      · exact absurd h ht
      · exact h
    subst hlt
    have hrun : run initRes now .timedOut sLoop dq cOut =
        { finalState := some { sLoop with status := .Aborted },
          trace := Effect.persist { sLoop with status := .Aborted } ::
            (cancel_task ({ sLoop with status := .Aborted } : TaskState).task_id
              cOut).trace ++
            drainEffects (some { sLoop with status := .Aborted }) dq,
          raised := (cancel_task
            ({ sLoop with status := .Aborted } : TaskState).task_id cOut).raised } := by
      unfold run
      rw [if_neg hninit, if_neg ht]
    rw [hrun]
    refine ⟨?_, ?_, cancel_task_never_raises _ _⟩
    · intro s hs
      injection hs with hs2
      subst hs2
      refine ⟨rfl, ?_⟩
      rw [cancel_task_trace]
      rfl
    · rw [cancel_task_trace]
      simp [cancelCount, chainCalls_cons_persist, chainCalls_cons_chain,
        chainCalls_drain, isCancelCall]

/-- C7 witness: a run entered past its deadline cancels exactly once and
raises nothing. -/
theorem deadline_aborts_and_cancels_witness :
    cancelCount (run (InitResult.mk true expiredState false) 1000 .finished
      expiredState [] .ok).trace = 1 ∧
    (run (InitResult.mk true expiredState false) 1000 .finished expiredState []
      .ok).raised = false := by
  have h := deadline_aborts_and_cancels (InitResult.mk true expiredState false)
    1000 .finished expiredState [] .ok rfl (Or.inl (by decide))
  exact ⟨h.2.1, h.2.2⟩

/-- C8: init returns false (skip) when the loaded state is already terminal;
when the chain task is nonexistent (id zero or mismatched) it forces Aborted,
dumps, and returns false; otherwise it returns true with the authoritative
chain timeout copied into the state; and for a loaded record the finally
block dumps exactly when the state was mutated (a created record is always
dumped). -/
theorem init_spec (task_id : Nat) (cached : Option TaskState) (chain : ChainTask) :
    (((init_start task_id cached).status = .Success ∨
        (init_start task_id cached).status = .Aborted) →
      (init task_id cached chain).ok = false) ∧
    (¬((init_start task_id cached).status = .Success ∨
        (init_start task_id cached).status = .Aborted) →
      (chain.id = 0 ∨ chain.id ≠ task_id) →
      ((init task_id cached chain).ok = false ∧
        (init task_id cached chain).state.status = .Aborted ∧
        (init task_id cached chain).dumped = true)) ∧
    (¬((init_start task_id cached).status = .Success ∨
        (init_start task_id cached).status = .Aborted) →
      ¬(chain.id = 0 ∨ chain.id ≠ task_id) →
      ((init task_id cached chain).ok = true ∧
        (init task_id cached chain).state.timeout = chain.timeout)) ∧
    (∀ s, cached = some s →
      ((init task_id cached chain).dumped = true ↔
        (init task_id cached chain).state ≠ s)) ∧
    (cached = none → (init task_id cached chain).dumped = true) := by
  by_cases hterm : (init_start task_id cached).status = .Success ∨
      (init_start task_id cached).status = .Aborted
  · have hinit : init task_id cached chain =
        { ok := false, state := init_start task_id cached,
          dumped := cached.isNone } := by
      simp only [init]
      rw [if_pos hterm]
    refine ⟨fun _ => by rw [hinit], fun hnt => absurd hterm hnt,
      fun hnt => absurd hterm hnt, ?_, ?_⟩
    · intro s hs
      subst hs
      rw [hinit]
      simp [init_start]
    · intro h
      subst h
      simp [hinit]
  · by_cases hne : chain.id = 0 ∨ chain.id ≠ task_id
    · have hg : get_task task_id chain = none := by
        simp only [get_task]
        rw [if_pos hne]
      have hinit : init task_id cached chain =
          { ok := false,
            state := { init_start task_id cached with status := .Aborted },
            dumped := true } := by
        simp only [init, hg]
        rw [if_neg hterm]
      refine ⟨fun h => absurd h hterm, fun _ _ => ⟨by rw [hinit], by rw [hinit], by rw [hinit]⟩,
        fun _ h => absurd hne h, ?_, ?_⟩
      · intro s hs
        subst hs
        rw [hinit]
        simp only [init_start]
        constructor
        · intro _ heq
          have h2 := congrArg TaskState.status heq
          exact hterm (Or.inr h2.symm)
        · intro _
          trivial
      · intro h
        subst h
        simp [hinit]
    · have hg : get_task task_id chain = some chain := by
        simp only [get_task]
        rw [if_neg hne]
      by_cases htm : (init_start task_id cached).timeout ≠ chain.timeout
      · have hinit : init task_id cached chain =
            { ok := true,
              state := { init_start task_id cached with timeout := chain.timeout },
              dumped := true } := by
          simp only [init, hg]
          rw [if_neg hterm, if_pos htm]
        refine ⟨fun h => absurd h hterm, fun _ h => absurd h hne,
          fun _ _ => ⟨by rw [hinit], by rw [hinit]⟩, ?_, ?_⟩
        · intro s hs
          subst hs
          rw [hinit]
          simp only [init_start]
          constructor
          · intro _ heq
            have h2 := congrArg TaskState.timeout heq
            exact htm h2.symm
          · intro _
            trivial
        · intro h
          subst h
          simp [hinit]
      · have hinit : init task_id cached chain =
            { ok := true, state := init_start task_id cached,
              dumped := cached.isNone } := by
          simp only [init, hg]
          rw [if_neg hterm, if_neg htm]
        refine ⟨fun h => absurd h hterm, fun _ h => absurd h hne,
          fun _ _ => ⟨by rw [hinit], ?_⟩, ?_, ?_⟩
        · rw [hinit]
          exact not_not.mp htm
        · intro s hs
          subst hs
          rw [hinit]
          simp [init_start]
        · intro h
          subst h
          simp [hinit]

/-- C8 witness: the three init paths evaluated on concrete caches and chain
tasks. -/
theorem init_spec_witness :
    (init 7 (some successState) exampleChainTask).ok = false ∧
    ((init 7 (some executingState) zeroChainTask).state.status = .Aborted ∧
      (init 7 (some executingState) zeroChainTask).dumped = true) ∧
    ((init 7 (some executingState) exampleChainTask).ok = true ∧
      (init 7 (some executingState) exampleChainTask).state.timeout =
        exampleChainTask.timeout) := by
  refine ⟨?_, ?_, ?_⟩
  · exact (init_spec 7 (some successState) exampleChainTask).1 (Or.inl rfl)
  · have h := ((init_spec 7 (some executingState) zeroChainTask).2.1
      (by decide) (Or.inl rfl))
    exact ⟨h.2.1, h.2.2⟩
  · exact (init_spec 7 (some executingState) exampleChainTask).2.2.1
      (by decide) (by decide)
